import Mathlib

/-!
Verification development for the log-socket subscriber core: the
authorization-filtered send protocol (listener.Send), the flow-reference
addressing scheme (ExtractFlow), and the connection admission sequence
(the handler inside Listen), shallowly embedded from src/internal/listener.go.
-/

namespace LogSocket

/-! ## Go string primitives used by listener.go

The Go code uses strings.Split, strings.ReplaceAll and strings.TrimLeft.
We embed them as structurally recursive functions over character lists so
that all evaluations reduce in the kernel. -/

/-- Embeds strings.Split(s, sep) for a one-character separator, over a
character list: n separators yield n+1 fields, the empty string yields one
empty field. -/
def splitCharAux (sep : Char) : List Char → List (List Char)
  | [] => [[]]
  | c :: rest =>
    if c = sep then [] :: splitCharAux sep rest
    else
      match splitCharAux sep rest with
      | [] => [[c]]
      | f :: fs => (c :: f) :: fs

/-- Embeds strings.Split(s, sep) for a one-character separator sep. -/
def splitChar (sep : Char) (s : String) : List String :=
  (splitCharAux sep s.toList).map String.mk

/-- Embeds strings.ReplaceAll(s, ":", "_") from listener.go line 119: every
colon becomes an underscore. -/
def replaceColons (s : String) : String :=
  String.mk (s.toList.map (fun c => if c = ':' then '_' else c))

/-- Embeds strings.TrimLeft(path, "/") from ExtractFlow: drops every leading
slash. -/
def trimLeftSlashes (s : String) : String :=
  String.mk (s.toList.dropWhile (fun c => c = '/'))

/-! ## Record data model -/

/-- Modelled from the spec: the nested string-keyed mapping carried in
record.Fields (spec section 3); the Record type itself is defined outside
src/. A node is a string leaf, a nested mapping, or some other value (any
non-string, non-map payload, on which a Go string type assertion fails). -/
inductive FieldValue
  | str (s : String)
  | map (m : List (String × FieldValue))
  | other

/-- Association-list lookup inside one mapping level of a FieldValue. -/
def lookupField : List (String × FieldValue) → String → Option FieldValue
  | [], _ => none
  | (k, v) :: rest, key => if k = key then some v else lookupField rest key

/-- Modelled from the spec: the nested-field accessor GetIn used by
listener.Send (its definition lives outside src/); walks the key path
through nested mappings, none when a key is missing or an intermediate
value is not a mapping. -/
def getInAux : List String → FieldValue → Option FieldValue
  | [], v => some v
  | key :: keys, v =>
    match v with
    | FieldValue.map m =>
      match lookupField m key with
      | some v => getInAux keys v
      | none => none
    | _ => none

/-- GetIn(data, keys...) as called in listener.Send. -/
def GetIn (data : FieldValue) (path : List String) : Option FieldValue :=
  getInAux path data

/-- The Go comma-ok string type assertion GetIn(...).(string): some s exactly
when the nested value is present and is a string. -/
def getString (data : FieldValue) (path : List String) : Option String :=
  match GetIn data path with
  | some (FieldValue.str s) => some s
  | _ => none

/-- Modelled from the spec: the well-known access-list label key
RBACAllowList (its constant is defined outside src/; no claim depends on its
concrete value, only on it being one fixed key). -/
def RBACAllowList : String := "rbac"

/-- Modelled from the spec: a Record (spec section 3) is a nested field
mapping used for policy evaluation plus the verbatim raw byte payload,
modelled as a string whose length stands for the byte length. Field names
follow the use sites in listener.Send (r.Data, r.RawData). -/
structure Record where
  Data : FieldValue
  RawData : String

/-- The access-list lookup of listener.Send line 111:
GetIn(r.Data, "kubernetes", "labels", RBACAllowList).(string), comma-ok. -/
def accessListOf (r : Record) : Option String :=
  getString r.Data ["kubernetes", "labels", RBACAllowList]

/-- The pod-name lookup of listener.Send line 122:
GetIn(r.Data, "kubernetes", "pod_name"), comma-ok view of the string
assertion (the code itself asserts without the comma-ok guard). -/
def podNameOf (r : Record) : Option String :=
  getString r.Data ["kubernetes", "pod_name"]

/-! ## SeekSlice (listener.go lines 164-171) -/

/-- Helper for SeekSlice carrying the running index. -/
def seekSliceAux : List String → String → Nat → Int
  | [], _, _ => -1
  | s :: rest, str, i => if s = str then (i : Int) else seekSliceAux rest str (i + 1)

/-- Embeds SeekSlice from listener.go: the index of the first occurrence of
str in slice, or -1 when absent. -/
def SeekSlice (slice : List String) (str : String) : Int :=
  seekSliceAux slice str 0

/-! ## The send protocol (listener.Send, listener.go lines 108-148) -/

/-- Deltas of the four per-record metrics counters touched by listener.Send:
MLogTransfered, MBytesTransferred, MLogFiltered, MBytesFiltered. The metrics
sink is an external boundary; we record the increments. -/
structure SendMetrics where
  logTransferred : Nat
  bytesTransferred : Nat
  logFiltered : Nat
  bytesFiltered : Nat
deriving DecidableEq, Repr

/-- Outcome of the three-stage websocket write pipeline used by Send: the
stage that fails first (NextWriter, Write, Close), or ok when all three
succeed. The connection is an external boundary, so the outcome is a
parameter of the embedding. -/
inductive WriteOutcome
  | nextWriterErr
  | writeErr
  | closeErr
  | ok
deriving DecidableEq, Repr

/-- Observable result of one listener.Send call: skipped (access list
missing or not a string: log and return, nothing written, no counters),
panicked (the unguarded pod-name string assertion on line 122 failed after
the filtered counters were already incremented), delivered (payload written
as one binary message), or writeFailed (some write stage failed after the
counters were incremented; asynchronous unregistration is scheduled). -/
inductive SendResult
  | skipped
  | panicked (m : SendMetrics)
  | delivered (payload : String) (m : SendMetrics)
  | writeFailed (payload : String) (m : SendMetrics)
deriving DecidableEq, Repr

/-- The substitute payload built on the permission-denied branch of Send
(listener.go line 122): a small JSON object naming the pod and the
identity. -/
def deniedPayload (pod username : String) : String :=
  "\x7b\"error\": \"Permission denied to access " ++ pod ++ " logs for " ++ username ++ "\"\x7d"

/-- The write pipeline of Send (lines 128-147): on success the chosen data
is delivered; on any stage failure the result records the failure and that
unregistration was scheduled (the goto unregister target). -/
def writeData (data : String) (m : SendMetrics) (w : WriteOutcome) : SendResult :=
  match w with
  | WriteOutcome.ok => SendResult.delivered data m
  | _ => SendResult.writeFailed data m

/-- Embeds listener.Send (listener.go lines 108-148). username is
l.usrInfo.Username; w is the write-pipeline outcome of this call.
Branches in source order: access-list comma-ok assertion (111-115),
membership test on the normalized username (119), filtered counters and the
unguarded pod-name assertion (120-122), transferred counters (124-125),
then the shared write pipeline. -/
def send (username : String) (r : Record) (w : WriteOutcome) : SendResult :=
  match accessListOf r with
  | none => SendResult.skipped
  | some allowListStr =>
    let allowList := splitChar ',' allowListStr
    if SeekSlice allowList (replaceColons username) = -1 then
      let m : SendMetrics := ⟨0, 0, 1, r.RawData.length⟩
      match podNameOf r with
      | none => SendResult.panicked m
      | some pod => writeData (deniedPayload pod username) m w
    else
      writeData r.RawData ⟨1, r.RawData.length, 0, 0⟩ w

/-- The metrics deltas recorded by a Send call. -/
def SendResult.metricsOf : SendResult → SendMetrics
  | SendResult.skipped => ⟨0, 0, 0, 0⟩
  | SendResult.panicked m => m
  | SendResult.delivered _ m => m
  | SendResult.writeFailed _ m => m

/-- The payload actually written to the connection, when the call wrote
one. -/
def SendResult.written : SendResult → Option String
  | SendResult.delivered d _ => some d
  | _ => none

/-- Whether the call scheduled asynchronous unregistration (the goto
unregister target: go l.reg.Unregister(l)). -/
def SendResult.unregScheduled : SendResult → Bool
  | SendResult.writeFailed _ _ => true
  | _ => false

/-! ## Flow addressing (ExtractFlow, listener.go lines 154-162) -/

/-- Modelled from the spec: the namespace-scoped flow kind named by the
spec (FlowKind is a string type defined outside src/). -/
def FlowKindFlow : String := "flow"

/-- Modelled from the spec: the cluster-scoped flow kind named by the
spec. -/
def FlowKindClusterFlow : String := "clusterflow"

/-- Modelled from the spec: FlowReference (spec section 3) with the fields
used by listener.go; the type itself is defined outside src/. Kind is a
string, as FlowKind is a Go string type and ExtractFlow converts the first
path segment to it without validation. -/
structure FlowReference where
  Kind : String
  Namespace : String
  Name : String
deriving DecidableEq, Repr

/-- The data-model invariant of spec section 3: Namespace is empty iff the
kind is the cluster-scoped one. -/
def flowRefInvariant (fr : FlowReference) : Prop :=
  fr.Namespace = "" ↔ fr.Kind = FlowKindClusterFlow

instance (fr : FlowReference) : Decidable (flowRefInvariant fr) := by
  unfold flowRefInvariant; infer_instance

/-- Embeds ExtractFlow (listener.go lines 154-162) on the request path:
trim leading slashes, split on slashes, error when fewer than three
segments, else take the first three segments as Kind, Namespace, Name. The
list pattern a :: b :: c :: rest is exactly the len(elts) < 3 guard plus
the elts[0], elts[1], elts[2] reads. -/
def ExtractFlow (path : String) : Except String FlowReference :=
  let elts := splitChar '/' (trimLeftSlashes path)
  match elts with
  | a :: b :: c :: _ => Except.ok ⟨a, b, c⟩
  | _ => Except.error "error parsing listener reg URL"

/-- Whether ExtractFlow succeeds on a path. -/
def extractOk (path : String) : Bool :=
  match ExtractFlow path with
  | Except.ok _ => true
  | Except.error _ => false

/-! ## Connection gateway (the handler inside Listen, listener.go 22-77) -/

/-- One incoming admission attempt, with the outcomes of the two external
boundaries: authToken is r.Header.Get(AuthHeaderKey), the empty string when
the header is absent; authResult is the Authenticate outcome carrying the
username on success; upgradeOk is the websocket upgrade outcome. -/
structure AdmissionInput where
  authToken : String
  authResult : Option String
  path : String
  upgradeOk : Bool

/-- Steps of the admission handler in the order they happen; the trace of
one request lists them in temporal order. -/
inductive GwEvent
  | rejectMissingToken
  | tokenOk
  | rejectAuthFailed
  | authOk
  | rejectParseFailed
  | parseOk
  | upgradeAttempt
  | upgradeFail
  | register
deriving DecidableEq, Repr

/-- Observable outcome of one admission attempt: the ordered event trace,
the deltas of the listener metrics counters touched before the close
handler runs (MListenerTotal, MListenerRejected, MListenerApproved), the
HTTP status written by http.Error when a structured rejection happens, and
the registered listener data (flow and username) when Register was
called. -/
structure GatewayOutcome where
  events : List GwEvent
  total : Nat
  rejected : Nat
  approved : Nat
  response : Option Nat
  registered : Option (FlowReference × String)
deriving DecidableEq, Repr

/-- Embeds the HandlerFunc body of Listen (listener.go lines 22-77) up to
and including the Register call, in source order: total counter, token
presence check (27-32), Authenticate (34-39), ExtractFlow (41-45), upgrade
(47-51), approved counter and Register (62-63). Each early return of the
Go code is one branch. -/
def handleRequest (i : AdmissionInput) : GatewayOutcome :=
  if i.authToken = "" then
    { events := [GwEvent.rejectMissingToken], total := 1, rejected := 1,
      approved := 0, response := some 403, registered := none }
  else
    match i.authResult with
    | none =>
      { events := [GwEvent.tokenOk, GwEvent.rejectAuthFailed], total := 1,
        rejected := 1, approved := 0, response := some 500, registered := none }
    | some username =>
      match ExtractFlow i.path with
      | Except.error _ =>
        { events := [GwEvent.tokenOk, GwEvent.authOk, GwEvent.rejectParseFailed],
          total := 1, rejected := 0, approved := 0, response := some 404,
          registered := none }
      | Except.ok fr =>
        if i.upgradeOk then
          { events := [GwEvent.tokenOk, GwEvent.authOk, GwEvent.parseOk,
              GwEvent.upgradeAttempt, GwEvent.register],
            total := 1, rejected := 0, approved := 1, response := none,
            registered := some (fr, username) }
        else
          { events := [GwEvent.tokenOk, GwEvent.authOk, GwEvent.parseOk,
              GwEvent.upgradeAttempt, GwEvent.upgradeFail],
            total := 1, rejected := 0, approved := 0, response := none,
            registered := none }

/-! ## Helper lemmas -/

/-- seekSliceAux returns -1 exactly when the sought string is absent,
whatever the running index. -/
theorem seekSliceAux_eq_neg_one (l : List String) (s : String) :
    ∀ i : Nat, (seekSliceAux l s i = -1 ↔ s ∉ l) := by
  induction l with
  | nil => intro i; simp [seekSliceAux]
  | cons hd tl ih =>
    intro i
    unfold seekSliceAux
    by_cases h : hd = s
    · subst h
      rw [if_pos rfl]
      constructor
      · intro hi; exfalso; omega
      · intro hni; exact absurd (List.mem_cons_self _ _) hni
    · rw [if_neg h, ih (i + 1)]
      constructor
      · intro hni hc
        rcases List.mem_cons.mp hc with hc | hc
        · exact h hc.symm
        · exact hni hc
      · intro hni hc
        exact hni (List.mem_cons_of_mem hd hc)

/-- SeekSlice returns -1 exactly when the sought string is absent from the
slice, mirroring its use as a membership test in listener.Send. -/
theorem SeekSlice_eq_neg_one_iff (l : List String) (s : String) :
    SeekSlice l s = -1 ↔ s ∉ l :=
  seekSliceAux_eq_neg_one l s 0

/-- The character-level colon replacement is idempotent. -/
theorem repChar_idem (c : Char) :
    (if (if c = ':' then '_' else c) = ':' then '_'
     else (if c = ':' then '_' else c)) = (if c = ':' then '_' else c) := by
  by_cases h : c = ':' <;> simp [h]

/-- Normalization is idempotent: a normalized identity contains no colon,
so normalizing it again changes nothing. -/
theorem replaceColons_idem (s : String) :
    replaceColons (replaceColons s) = replaceColons s := by
  unfold replaceColons
  have h : (String.mk (s.toList.map (fun c => if c = ':' then '_' else c))).toList
      = s.toList.map (fun c => if c = ':' then '_' else c) := rfl
  rw [h, List.map_map]
  have hf : ((fun c => if c = ':' then '_' else c) ∘ (fun c => if c = ':' then '_' else c))
      = (fun c : Char => if c = ':' then '_' else c) := by
    funext c
    exact repChar_idem c
  rw [hf]

/-- Membership of a normalized identity among normalized candidates implies
nothing extra, but absence among normalized candidates implies absence
among the verbatim candidates, because the sought value is itself
normalized. -/
theorem not_mem_map_replaceColons (u : String) (l : List String)
    (hn : replaceColons u ∉ l.map replaceColons) : replaceColons u ∉ l := by
  intro hmem
  apply hn
  have := List.mem_map_of_mem replaceColons hmem
  rwa [replaceColons_idem] at this

/-- The write pipeline never reports the pod-name panic. -/
theorem writeData_ne_panicked (d : String) (m m' : SendMetrics) (w : WriteOutcome) :
    writeData d m w ≠ SendResult.panicked m' := by
  cases w <;> simp [writeData]

/-- Shape of a Send call as a function of the write outcome: either the
call reaches the write pipeline with a fixed payload and counters, or its
result is one fixed write-free value (skipped or panicked). -/
theorem send_cases (u : String) (r : Record) :
    (∃ d m, ∀ w, send u r w = writeData d m w)
    ∨ (∀ w, send u r w = SendResult.skipped)
    ∨ (∃ m, ∀ w, send u r w = SendResult.panicked m) := by
  cases h : accessListOf r with
  | none =>
    right; left
    intro w
    unfold send
    rw [h]
  | some L =>
    by_cases hm : SeekSlice (splitChar ',' L) (replaceColons u) = -1
    · cases hp : podNameOf r with
      | none =>
        right; right
        refine ⟨⟨0, 0, 1, r.RawData.length⟩, fun w => ?_⟩
        unfold send
        rw [h]
        dsimp only
        rw [if_pos hm, hp]
      | some pod =>
        left
        refine ⟨deniedPayload pod u, ⟨0, 0, 1, r.RawData.length⟩, fun w => ?_⟩
        unfold send
        rw [h]
        dsimp only
        rw [if_pos hm, hp]
    · left
      refine ⟨r.RawData, ⟨1, r.RawData.length, 0, 0⟩, fun w => ?_⟩
      unfold send
      rw [h]
      dsimp only
      rw [if_neg hm]

/-! ## Concrete records for witnesses and counterexamples -/

/-- A record whose access list is the single candidate alice:dev, with a pod
name and a three-byte raw payload. -/
def recordC1 : Record :=
  ⟨FieldValue.map [("kubernetes", FieldValue.map
      [("labels", FieldValue.map [(RBACAllowList, FieldValue.str "alice:dev")]),
       ("pod_name", FieldValue.str "pod-1")])], "abc"⟩

/-- A record whose access list is alice,bob, with a pod name and a raw
payload. -/
def recordC1w : Record :=
  ⟨FieldValue.map [("kubernetes", FieldValue.map
      [("labels", FieldValue.map [(RBACAllowList, FieldValue.str "alice,bob")]),
       ("pod_name", FieldValue.str "pod-1")])], "payload"⟩

/-! ## Claim C1 -/

/-- Claim C1, as stated, is false on the code: listener.Send normalizes only
the subscriber identity, never the candidates split from the access list.
At identity alice:dev and access list alice:dev the normalized identity
alice_dev is an element of the normalized candidate set, so the claim
requires delivery, yet Send compares alice_dev against the verbatim
candidate alice:dev, misses, and writes the permission-denied substitute
with the filtered counters. -/
theorem C1_counterexample :
    replaceColons "alice:dev" ∈ (splitChar ',' "alice:dev").map replaceColons
    ∧ send "alice:dev" recordC1 WriteOutcome.ok
        = SendResult.delivered (deniedPayload "pod-1" "alice:dev") ⟨0, 0, 1, 3⟩
    ∧ (send "alice:dev" recordC1 WriteOutcome.ok).written ≠ some recordC1.RawData := by
  decide

/-- Helper: on a record whose access-list field is the string L, the raw
payload is delivered exactly when the normalized subscriber identity occurs
verbatim among the comma-split candidates. -/
theorem send_raw_delivery_iff (u L : String) (r : Record)
    (h : accessListOf r = some L) :
    (send u r WriteOutcome.ok
      = SendResult.delivered r.RawData ⟨1, r.RawData.length, 0, 0⟩)
    ↔ replaceColons u ∈ splitChar ',' L := by
  unfold send
  rw [h]
  dsimp only
  by_cases hm : replaceColons u ∈ splitChar ',' L
  · rw [if_neg (fun hc => ((SeekSlice_eq_neg_one_iff _ _).mp hc) hm)]
    simp [writeData, hm]
  · rw [if_pos ((SeekSlice_eq_neg_one_iff _ _).mpr hm)]
    cases hp : podNameOf r
    · simp [hm]
    · simp [writeData, hm]

/-- Claim C1 (amended): before the membership test only the Subscriber
identity is normalized (colons to underscores); the candidates obtained by
splitting the access list on commas are compared verbatim. For every
subscriber identity u and record whose access-list field is the string L,
the raw record is delivered iff replaceColons u is an element of
splitChar comma L. -/
theorem C1_send_delivery_iff_verbatim_membership (u L : String) (r : Record)
    (h : accessListOf r = some L) :
    (send u r WriteOutcome.ok
      = SendResult.delivered r.RawData ⟨1, r.RawData.length, 0, 0⟩)
    ↔ replaceColons u ∈ splitChar ',' L :=
  send_raw_delivery_iff u L r h

/-- Witness for the amended claim C1 at a concrete input: subscriber bob
and access list alice,bob give delivery of the raw payload. -/
theorem C1_witness :
    (send "bob" recordC1w WriteOutcome.ok
      = SendResult.delivered recordC1w.RawData ⟨1, recordC1w.RawData.length, 0, 0⟩)
    ↔ replaceColons "bob" ∈ splitChar ',' "alice,bob" :=
  C1_send_delivery_iff_verbatim_membership "bob" "alice,bob" recordC1w (by decide)

/-! ## Claim C2 -/

/-- Claim C2 names the intended parser (two shapes, first segment checked),
which the current ExtractFlow does not implement: it only requires at least
three segments and copies the first three verbatim. Evaluated at the
spec-mandated inputs: the two-segment clusterflow path is rejected, an
unrecognized first segment is accepted, and a four-segment path is
accepted, all contradicting the claim. The earlier in-repo revision of
ExtractFlow matches the claim, so this is recorded as a code bug. -/
theorem C2_code_behavior :
    ExtractFlow "/clusterflow/my-flow" = Except.error "error parsing listener reg URL"
    ∧ ExtractFlow "/bogus/ns/name" = Except.ok ⟨"bogus", "ns", "name"⟩
    ∧ ExtractFlow "/flow/ns/name/extra" = Except.ok ⟨"flow", "ns", "name"⟩
    ∧ ExtractFlow "/flow/ns/name" = Except.ok ⟨FlowKindFlow, "ns", "name"⟩ :=
  ⟨rfl, rfl, rfl, rfl⟩

/-! ## Claim C3 -/

/-- A record with an access list but no pod-name field, raw payload of five
bytes. -/
def recordC3 : Record :=
  ⟨FieldValue.map [("kubernetes", FieldValue.map
      [("labels", FieldValue.map [(RBACAllowList, FieldValue.str "alice")])])], "hello"⟩

/-- A record with access list alice,bob, pod name pod-9 and raw payload
hello. -/
def recordC3w : Record :=
  ⟨FieldValue.map [("kubernetes", FieldValue.map
      [("labels", FieldValue.map [(RBACAllowList, FieldValue.str "alice,bob")]),
       ("pod_name", FieldValue.str "pod-9")])], "hello"⟩

/-- Claim C3, as stated, is false on the code: it quantifies over every
record whose access-list field is a string, but when the kubernetes
pod_name field is absent the unguarded string assertion on the denied
branch panics after incrementing the filtered counters, and no substitute
payload is ever written. -/
theorem C3_counterexample :
    send "bob" recordC3 WriteOutcome.ok = SendResult.panicked ⟨0, 0, 1, 5⟩
    ∧ (send "bob" recordC3 WriteOutcome.ok).written = none := by
  decide

/-- Claim C3 (amended): additionally assuming the kubernetes pod_name field
is present as a string, an unauthorized subscriber (normalized identity
absent from the normalized candidate set) receives the permission-denied
substitute payload naming the pod and the identity, and the filtered
counters record count 1 and the byte length of the original raw payload. -/
theorem C3_denied_substitute (u L pod : String) (r : Record)
    (h : accessListOf r = some L)
    (hp : podNameOf r = some pod)
    (hn : replaceColons u ∉ (splitChar ',' L).map replaceColons) :
    send u r WriteOutcome.ok
      = SendResult.delivered (deniedPayload pod u) ⟨0, 0, 1, r.RawData.length⟩ := by
  have hm : replaceColons u ∉ splitChar ',' L := not_mem_map_replaceColons u _ hn
  unfold send
  rw [h]
  dsimp only
  rw [if_pos ((SeekSlice_eq_neg_one_iff _ _).mpr hm), hp]
  rfl

/-- Witness for the amended claim C3 at a concrete input: subscriber carol
against access list alice,bob receives the substitute naming pod-9 and
carol, with filtered counters 1 and 5. -/
theorem C3_witness :
    send "carol" recordC3w WriteOutcome.ok
      = SendResult.delivered (deniedPayload "pod-9" "carol") ⟨0, 0, 1, recordC3w.RawData.length⟩ :=
  C3_denied_substitute "carol" "alice,bob" "pod-9" recordC3w (by decide) (by decide) (by decide)

/-! ## Claim C4 -/

/-- A record whose single access-list candidate contains a colon, with a
pod name and a four-byte raw payload. -/
def recordC4 : Record :=
  ⟨FieldValue.map [("kubernetes", FieldValue.map
      [("labels", FieldValue.map [(RBACAllowList, FieldValue.str "x:y")]),
       ("pod_name", FieldValue.str "pod-2")])], "abcd"⟩

/-- A record with access list alice,bob, pod name pod-3 and raw payload
payload. -/
def recordC4w : Record :=
  ⟨FieldValue.map [("kubernetes", FieldValue.map
      [("labels", FieldValue.map [(RBACAllowList, FieldValue.str "alice,bob")]),
       ("pod_name", FieldValue.str "pod-3")])], "payload"⟩

/-- Claim C4, as stated, is false on the code: at identity x:y and access
list x:y the normalized identity x_y is among the normalized candidates, so
the claim requires delivery of the raw payload with transferred counters,
yet Send compares x_y against the verbatim candidate x:y, misses, and
writes the substitute with filtered counters instead. -/
theorem C4_counterexample :
    replaceColons "x:y" ∈ (splitChar ',' "x:y").map replaceColons
    ∧ send "x:y" recordC4 WriteOutcome.ok
        = SendResult.delivered (deniedPayload "pod-2" "x:y") ⟨0, 0, 1, 4⟩ := by
  decide

/-- Claim C4 (amended): for every record whose access-list field is the
string L and every subscriber whose normalized identity occurs verbatim in
splitChar comma L, Send delivers the original raw payload unmodified, and
the transferred counters record count 1 and the byte length of the raw
payload whatever the write outcome. -/
theorem C4_transfer_raw_payload (u L : String) (r : Record)
    (h : accessListOf r = some L)
    (hm : replaceColons u ∈ splitChar ',' L) :
    send u r WriteOutcome.ok
      = SendResult.delivered r.RawData ⟨1, r.RawData.length, 0, 0⟩
    ∧ ∀ w : WriteOutcome, (send u r w).metricsOf = ⟨1, r.RawData.length, 0, 0⟩ := by
  constructor
  · exact (send_raw_delivery_iff u L r h).mpr hm
  · intro w
    unfold send
    rw [h]
    dsimp only
    rw [if_neg (fun hc => ((SeekSlice_eq_neg_one_iff _ _).mp hc) hm)]
    cases w <;> rfl

/-- Witness for the amended claim C4 at a concrete input: subscriber bob
against access list alice,bob receives the raw payload with transferred
counters 1 and 7. -/
theorem C4_witness :
    send "bob" recordC4w WriteOutcome.ok
      = SendResult.delivered recordC4w.RawData ⟨1, recordC4w.RawData.length, 0, 0⟩
    ∧ ∀ w : WriteOutcome, (send "bob" recordC4w w).metricsOf
        = ⟨1, recordC4w.RawData.length, 0, 0⟩ :=
  C4_transfer_raw_payload "bob" "alice,bob" recordC4w (by decide) (by decide)

/-! ## Claim C5 -/

/-- A record whose access-list label is present but not a string, so the
comma-ok assertion fails exactly as for an absent field. -/
def recordC5 : Record :=
  ⟨FieldValue.map [("kubernetes", FieldValue.map
      [("labels", FieldValue.map [(RBACAllowList, FieldValue.other)]),
       ("pod_name", FieldValue.str "pod-5")])], "hello"⟩

/-- Claim C5: when the access-list field is absent or not a string, Send
logs and returns at once: nothing is written, all four counters are
untouched, and no unregistration is scheduled, so the connection stays
up. -/
theorem C5_missing_access_list_noop (u : String) (r : Record) (w : WriteOutcome)
    (h : accessListOf r = none) :
    send u r w = SendResult.skipped
    ∧ (send u r w).written = none
    ∧ (send u r w).metricsOf = ⟨0, 0, 0, 0⟩
    ∧ (send u r w).unregScheduled = false := by
  unfold send
  rw [h]
  exact ⟨rfl, rfl, rfl, rfl⟩

/-- Witness for claim C5 at a concrete input: a record whose access-list
label holds a non-string value is silently withheld. -/
theorem C5_witness :
    send "bob" recordC5 WriteOutcome.ok = SendResult.skipped
    ∧ (send "bob" recordC5 WriteOutcome.ok).written = none
    ∧ (send "bob" recordC5 WriteOutcome.ok).metricsOf = ⟨0, 0, 0, 0⟩
    ∧ (send "bob" recordC5 WriteOutcome.ok).unregScheduled = false :=
  C5_missing_access_list_noop "bob" recordC5 WriteOutcome.ok (by decide)

/-! ## Claim C6 -/

/-- Claim C6: a Send call schedules asynchronous unregistration exactly when
some write stage fails on a call that reaches the write pipeline (that is,
a call that would have delivered a payload had the writes succeeded), and
the all-stages-succeed path never schedules unregistration. Send is a total
function into SendResult, so no write error ever propagates to the
dispatching caller. -/
theorem C6_write_failure_unregisters (u : String) (r : Record) (w : WriteOutcome) :
    ((send u r w).unregScheduled = true
      ↔ (w ≠ WriteOutcome.ok ∧ ((send u r WriteOutcome.ok).written).isSome = true))
    ∧ (send u r WriteOutcome.ok).unregScheduled = false := by
  rcases send_cases u r with ⟨d, m, hw⟩ | hsk | ⟨m, hw⟩
  · rw [hw w, hw WriteOutcome.ok]
    cases w <;> simp [writeData, SendResult.unregScheduled, SendResult.written]
  · rw [hsk w, hsk WriteOutcome.ok]
    simp [SendResult.unregScheduled, SendResult.written]
  · rw [hw w, hw WriteOutcome.ok]
    simp [SendResult.unregScheduled, SendResult.written]

/-! ## Claims C7 and C8 -/

/-- Claim C7: in the admission handler the token presence check,
authentication and flow parsing all succeed strictly before the transport
upgrade is attempted; Register is reached only after token check,
authentication, flow parse and upgrade have all succeeded, and then the
trace is exactly the in-order success trace; every pre-registration failure
ends the attempt with no Registry operation. -/
theorem C7_admission_ordering (i : AdmissionInput) :
    ((GwEvent.register ∈ (handleRequest i).events)
      ↔ (i.authToken ≠ "" ∧ i.authResult.isSome = true
          ∧ extractOk i.path = true ∧ i.upgradeOk = true))
    ∧ (GwEvent.register ∈ (handleRequest i).events
        → (handleRequest i).events
          = [GwEvent.tokenOk, GwEvent.authOk, GwEvent.parseOk,
             GwEvent.upgradeAttempt, GwEvent.register])
    ∧ (GwEvent.upgradeAttempt ∈ (handleRequest i).events
        → i.authToken ≠ "" ∧ i.authResult.isSome = true ∧ extractOk i.path = true)
    ∧ ((handleRequest i).registered.isSome = true
        ↔ GwEvent.register ∈ (handleRequest i).events) := by
  unfold handleRequest extractOk
  by_cases ht : i.authToken = ""
  · simp [ht]
  · cases ha : i.authResult with
    | none => simp [ht, ha]
    | some username =>
      cases hf : ExtractFlow i.path with
      | error e => simp [ht, ha, hf]
      | ok fr =>
        by_cases hu : i.upgradeOk
        · simp [ht, ha, hf, hu]
        · simp [ht, ha, hf, hu]

/-- Claim C8: request outcomes and listener counters: a missing token gives
status 403 with one rejected increment; an authenticator failure gives
status 500 with one rejected increment; a flow-parse failure gives status
404 with no rejected increment; the approved counter is incremented exactly
on full admission, and then exactly once. -/
theorem C8_rejection_counters (i : AdmissionInput) :
    (i.authToken = ""
      → (handleRequest i).response = some 403 ∧ (handleRequest i).rejected = 1)
    ∧ (i.authToken ≠ "" → i.authResult = none
      → (handleRequest i).response = some 500 ∧ (handleRequest i).rejected = 1)
    ∧ (∀ u : String, i.authToken ≠ "" → i.authResult = some u → extractOk i.path = false
      → (handleRequest i).response = some 404 ∧ (handleRequest i).rejected = 0)
    ∧ ((handleRequest i).registered.isSome = true → (handleRequest i).approved = 1)
    ∧ ((handleRequest i).registered.isSome = false → (handleRequest i).approved = 0) := by
  unfold handleRequest extractOk
  by_cases ht : i.authToken = ""
  · simp [ht]
  · cases ha : i.authResult with
    | none => simp [ht, ha]
    | some username =>
      cases hf : ExtractFlow i.path with
      | error e => simp [ht, ha, hf]
      | ok fr =>
        by_cases hu : i.upgradeOk
        · simp [ht, ha, hf, hu]
        · simp [ht, ha, hf, hu]

/-! ## Claim C9 -/

/-- Claim C9 names the data-model invariant (Namespace empty iff kind is
cluster-scoped), which the current ExtractFlow does not establish: a
three-segment clusterflow path parses successfully to a reference with the
cluster-scoped kind and a nonempty namespace, and a flow path with an empty
middle segment parses to the namespace-scoped kind with an empty namespace;
both successful parses violate the invariant. Recorded as a code bug of the
same parser regression as claim C2. -/
theorem C9_invariant_violated :
    ExtractFlow "/clusterflow/ns/name" = Except.ok ⟨FlowKindClusterFlow, "ns", "name"⟩
    ∧ ¬ flowRefInvariant ⟨FlowKindClusterFlow, "ns", "name"⟩
    ∧ ExtractFlow "/flow//name" = Except.ok ⟨FlowKindFlow, "", "name"⟩
    ∧ ¬ flowRefInvariant ⟨FlowKindFlow, "", "name"⟩ :=
  ⟨rfl, by decide, rfl, by decide⟩

/-! ## Claim C10 -/

/-- Claim C10: Send panics exactly when the record carries a string
access list, the normalized subscriber identity is absent from the verbatim
comma-split candidates (the denied branch), and the kubernetes pod_name
field is absent or not a string — the unguarded type assertion of
listener.go line 122. In every other case, in particular whenever the
pod-name field is present as a string, no panic happens, so the denied
branch is safe exactly under that precondition. -/
theorem C10_denied_branch_panic (u : String) (r : Record) (w : WriteOutcome) :
    (∃ m : SendMetrics, send u r w = SendResult.panicked m)
    ↔ (∃ L : String, accessListOf r = some L
        ∧ replaceColons u ∉ splitChar ',' L
        ∧ podNameOf r = none) := by
  unfold send
  cases h : accessListOf r with
  | none => simp
  | some L =>
    dsimp only
    by_cases hm : SeekSlice (splitChar ',' L) (replaceColons u) = -1
    · rw [if_pos hm]
      cases hp : podNameOf r with
      | none =>
        simp only [SeekSlice_eq_neg_one_iff] at hm
        simp [hm]
      | some pod =>
        simp only [SeekSlice_eq_neg_one_iff] at hm
        constructor
        · intro hcontra
          rcases hcontra with ⟨m, hcm⟩
          exact absurd hcm (writeData_ne_panicked _ _ _ _)
        · intro hcontra
          rcases hcontra with ⟨L2, hL2, _, hpn⟩
          simp at hpn
    · rw [if_neg hm]
      simp only [SeekSlice_eq_neg_one_iff, not_not] at hm
      constructor
      · intro hcontra
        rcases hcontra with ⟨m, hcm⟩
        exact absurd hcm (writeData_ne_panicked _ _ _ _)
      · intro hcontra
        rcases hcontra with ⟨L2, hL2, hnm, _⟩
        cases hL2
        exact absurd hm hnm

end LogSocket
